import Mathlib

/-!
Verification of the state-extraction and validation pipeline
(src/pipeline/src/env/state_extractor.py, src/pipeline/src/validation/validator.py,
src/pipeline/src/validation/statistics.py).

Python floats are modelled exactly: by rationals in the validator and the
statistics aggregator (whose checks and reductions are field arithmetic and
comparisons), and by real numbers in the geometry engine (whose formulas use
math.sqrt and math.acos). Floating-point rounding is not modelled; every
concrete input used below is exactly representable.
-/

namespace Pipeline

/-! ## Validator data model (src/pipeline/src/validation/validator.py)

A numpy float64 is either NaN or a numeric value. -/

/-- A numpy float64 element: NaN or a (rational-modelled) numeric value. -/
inductive PyFloat where
  | nan : PyFloat
  | val (q : ℚ) : PyFloat
deriving DecidableEq

/-- np.isnan on one element. -/
def PyFloat.isNan : PyFloat → Bool
  | .nan => true
  | .val _ => false

/-- A Python object appearing in an input vector handed to Validator.validate:
a float, an int, a string (carrying its float-parse result: some q when
float(s) would succeed, none when it would raise), or None. -/
inductive PyObj where
  | float (f : PyFloat)
  | int (n : ℤ)
  | str (parsed : Option ℚ)
  | pynone
deriving DecidableEq

/-- isinstance(x, (int, float, np.floating, np.integer)) on an original input
element: strings and None are not numeric. -/
def isNumericObj : PyObj → Bool
  | .float _ => true
  | .int _ => true
  | .str _ => false
  | .pynone => false

/-- How np.asarray(state, dtype=float) converts one element: floats stay,
ints widen, parseable strings are parsed, None becomes NaN, and an
unparseable string raises (none). -/
def elemToFloat : PyObj → Option PyFloat
  | .float f => some f
  | .int n => some (.val (n : ℚ))
  | .str (some q) => some (.val q)
  | .str none => none
  | .pynone => some .nan

/-- np.asarray(state, dtype=float) over the whole vector (validator.py line 32):
none models the ValueError numpy raises when some element cannot be coerced. -/
def npAsarray (state : List PyObj) : Option (List PyFloat) :=
  state.mapM elemToFloat

/-- The error kinds Validator.validate can raise (validator.py lines 34-54):
dimension mismatch, NaN content, per-feature range violation, non-numeric
type, and the numpy coercion failure at line 32. -/
inductive VError where
  | dimError (expected actual : ℕ)
  | contentError
  | rangeError (feature : String) (value : PyFloat) (low high : ℚ)
  | typeError
  | convError
deriving DecidableEq

/-- self.expected_dim (validator.py line 11). -/
def expected_dim : ℕ := 40

/-- self.feature_order (validator.py lines 15-23). -/
def feature_order : List String :=
  ["velocity_ego", "num_passengers", "lane_position", "velocity_delta",
   "num_ped_if_straight", "num_ped_if_left", "num_ped_if_right"]
    ++ (List.range 33).map (fun i => "obstacle_" ++ toString i)

/-- The configured range for position idx (validator.py lines 43-46):
feature_order[idx] when idx is in bounds, then the "name_range" key in
self.ranges (modelled as an association list). -/
def rangeFor (ranges : List (String × ℚ × ℚ)) (idx : ℕ) :
    Option (String × ℚ × ℚ) :=
  match feature_order.get? idx with
  | some feature_name =>
    match ranges.lookup (feature_name ++ "_range") with
    | some (low, high) => some (feature_name, low, high)
    | none => none
  | none => none

/-- The chained comparison low <= value <= high (validator.py line 47); a NaN
value makes it false, so `not (...)` would raise. -/
def pyInRange (low high : ℚ) : PyFloat → Bool
  | .nan => false
  | .val q => decide (low ≤ q) && decide (q ≤ high)

/-- What the loop body at validator.py lines 41-51 does at one position:
raises a range error naming the feature, value and bounds when a configured
range is violated, nothing otherwise. -/
def rangeViolation (ranges : List (String × ℚ × ℚ)) (idx : ℕ)
    (value : PyFloat) : Option VError :=
  match rangeFor ranges idx with
  | some (feature_name, low, high) =>
    if !(pyInRange low high value) then
      some (.rangeError feature_name value low high)
    else none
  | none => none

/-- The range-check loop (validator.py lines 41-51): first violation wins. -/
def rangeCheck (ranges : List (String × ℚ × ℚ)) :
    ℕ → List PyFloat → Option VError
  | _, [] => none
  | idx, value :: rest =>
    match rangeViolation ranges idx value with
    | some e => some e
    | none => rangeCheck ranges (idx + 1) rest

/-- isinstance(x, (int, float, np.floating, np.integer)) on an element of the
array produced by np.asarray(..., dtype=float) (validator.py line 53): every
element of that array is an np.floating, so the test is identically true. -/
def isNumericElement (_ : PyFloat) : Bool := true

/-- Validator.validate (validator.py lines 25-55): convert, then check
dimension, NaN, ranges, and element types, in that order, short-circuiting
on the first failure. -/
def validate (ranges : List (String × ℚ × ℚ)) (state : List PyObj) :
    Except VError Bool :=
  match npAsarray state with
  | none => Except.error VError.convError
  | some vector =>
    if vector.length ≠ expected_dim then
      Except.error (VError.dimError expected_dim vector.length)
    else if vector.any PyFloat.isNan then
      Except.error VError.contentError
    else
      match rangeCheck ranges 0 vector with
      | some e => Except.error e
      | none =>
        if !(vector.all isNumericElement) then Except.error VError.typeError
        else Except.ok true

/-! ## Statistics aggregator (src/pipeline/src/validation/statistics.py) -/

namespace Statistics

/-- Statistics.update (statistics.py lines 12-14): append the vector to the
samples buffer (np.asarray of a float list is the list itself). -/
def update (samples : List (List ℚ)) (state_vector : List ℚ) :
    List (List ℚ) :=
  samples ++ [state_vector]

/-- Column j of np.vstack(self.samples): one entry per accumulated row.
numpy requires the stacked rows to share one length; getD's default is never
consulted on such rectangular data. -/
def column (samples : List (List ℚ)) (j : ℕ) : List ℚ :=
  samples.map (fun row => row.getD j 0)

/-- data.mean(axis=0) at one column. -/
def colMean (c : List ℚ) : ℚ := c.sum / c.length

/-- The population variance data.std(axis=0) squares at one column. -/
def colVar (c : List ℚ) : ℚ :=
  ((c.map (fun x => (x - colMean c) ^ 2)).sum) / c.length

/-- data.std(axis=0) at one column: the square root of the population
variance. -/
noncomputable def colStd (c : List ℚ) : ℝ := Real.sqrt ((colVar c : ℚ) : ℝ)

/-- data.min(axis=0) at one column (nonempty whenever samples exist). -/
def colMin : List ℚ → ℚ
  | [] => 0
  | x :: xs => xs.foldl min x

/-- data.max(axis=0) at one column. -/
def colMax : List ℚ → ℚ
  | [] => 0
  | x :: xs => xs.foldl max x

/-- The summary record {mean, std, min, max, count}
(statistics.py lines 21-27). -/
structure StatsSummary where
  mean : List ℚ
  std : List ℝ
  min : List ℚ
  max : List ℚ
  count : ℕ

/-- Statistics.summary (statistics.py lines 16-28): an empty structure (none)
when nothing was accumulated, otherwise the per-feature mean, population
standard deviation, min and max over the stacked rows, plus the row count.
The column count is the width of the stacked matrix, the common row length. -/
noncomputable def summary (samples : List (List ℚ)) : Option StatsSummary :=
  match samples with
  | [] => none
  | first :: rest =>
    let data := first :: rest
    let d := first.length
    some
      { mean := (List.range d).map fun j => colMean (column data j)
        std := (List.range d).map fun j => colStd (column data j)
        min := (List.range d).map fun j => colMin (column data j)
        max := (List.range d).map fun j => colMax (column data j)
        count := data.length }

end Statistics

/-! ## Geometry engine and assembler (src/pipeline/src/env/state_extractor.py)

Positions, velocities and forward vectors are real 3-vectors; the CARLA map
is modelled by its lane-query capability (a function from a position to an
optional waypoint), and the world's vehicle listing
world.get_actors().filter('vehicle.*') by an explicit vehicle list. -/

/-- A CARLA 3-vector (location, velocity or forward direction). -/
structure Vec3 where
  x : ℝ
  y : ℝ
  z : ℝ

/-- A vehicle actor: identity, location, velocity, and the forward vector of
its transform. -/
structure Vehicle where
  id : ℕ
  location : Vec3
  velocity : Vec3
  forward : Vec3

/-- A waypoint as get_lane_position reads it: transform.location and
transform.get_forward_vector(). -/
structure Waypoint where
  location : Vec3
  forward : Vec3

/-- The lane-query capability self.map.get_waypoint(location,
project_to_road=True, lane_type=Driving): a waypoint, or none. -/
abbrev LaneMap := Vec3 → Option Waypoint

/-- The extraction options read from config (state_extractor.py lines 54, 90,
127-128), with the source's defaults. -/
structure ExtractionConfig where
  max_lane_offset : ℝ := 1.75
  max_detection_distance : ℝ := 50.0
  detection_angle : ℝ := 30.0
  default_passengers : ℤ := 1

noncomputable section

/-- math.sqrt(v.x**2 + v.y**2 + v.z**2), the Euclidean magnitude used for
speeds (lines 42, 112) and distances (line 148). -/
def norm3 (v : Vec3) : ℝ := Real.sqrt (v.x ^ 2 + v.y ^ 2 + v.z ^ 2)

/-- The componentwise dot product (lines 155-159). -/
def dot3 (a b : Vec3) : ℝ := a.x * b.x + a.y * b.y + a.z * b.z

/-- The componentwise difference (lines 141-145). -/
def sub3 (a b : Vec3) : Vec3 := ⟨a.x - b.x, a.y - b.y, a.z - b.z⟩

/-- math.degrees. -/
def degrees (x : ℝ) : ℝ := x * 180 / Real.pi

/-- get_ego_velocity (lines 33-44): the speed of the vehicle in m/s. -/
def get_ego_velocity (ego : Vehicle) : ℝ := norm3 ego.velocity

/-- get_num_passengers (lines 46-54): the configured default. -/
def get_num_passengers (cfg : ExtractionConfig) : ℤ := cfg.default_passengers

/-- The value lines 79-93 of get_lane_position bind to normalized_position:
the displacement from the lane center projected on right = (-forward.y,
forward.x), divided by max_offset, clamped to [-1, 1]. -/
def normalizedLanePosition (vehicle_location : Vec3) (waypoint : Waypoint)
    (max_offset : ℝ) : ℝ :=
  let lane_center := waypoint.location
  let dx := vehicle_location.x - lane_center.x
  let dy := vehicle_location.y - lane_center.y
  let forward := waypoint.forward
  let right_x := -forward.y
  let right_y := forward.x
  let lateral_offset := dx * right_x + dy * right_y
  let normalized_position := lateral_offset / max_offset
  max (-1.0) (min 1.0 normalized_position)

/-- get_lane_position (lines 56-95). When the lane query finds no waypoint
the function returns 0.0 (line 75). Otherwise lines 77-93 compute
normalized_position, but the body ends at line 93 without a return
statement, so Python falls off the end and the call evaluates to None
(modelled as none). -/
def get_lane_position (laneMap : LaneMap) (cfg : ExtractionConfig)
    (ego : Vehicle) : Option ℝ :=
  let vehicle_location := ego.location
  match laneMap vehicle_location with
  | none => some 0.0
  | some waypoint =>
    let _normalized_position :=
      normalizedLanePosition vehicle_location waypoint cfg.max_lane_offset
    none

/-- leadCandidateDistance is the `distance` of line 148: the Euclidean
magnitude of the displacement from ego to the candidate. -/
def leadCandidateDistance (ego vehicle : Vehicle) : ℝ :=
  norm3 (sub3 vehicle.location ego.location)

/-- The `dot_product` of lines 155-159: ego forward dotted with the
displacement to the candidate. -/
def leadCandidateDot (ego vehicle : Vehicle) : ℝ :=
  dot3 ego.forward (sub3 vehicle.location ego.location)

/-- The `angle` of lines 166-171: degrees(acos(clamp(dot / (|forward| *
distance)))), the cosine clamped to [-1, 1] before acos. -/
def leadCandidateAngle (ego vehicle : Vehicle) : ℝ :=
  degrees (Real.arccos (max (-1.0) (min 1.0
    (leadCandidateDot ego vehicle /
      (norm3 ego.forward * leadCandidateDistance ego vehicle)))))

/-- One iteration of the loop at lines 133-180. The running pair
(closest_vehicle, min_distance) starts as (None, inf); the option collapses
the two variables, none standing for that initial state, in which the
`distance < min_distance` test at line 178 is always true. -/
def considerVehicle (ego : Vehicle) (max_distance detection_angle : ℝ)
    (acc : Option (Vehicle × ℝ)) (vehicle : Vehicle) :
    Option (Vehicle × ℝ) :=
  if vehicle.id = ego.id then acc
  else
    let distance := leadCandidateDistance ego vehicle
    if distance > max_distance then acc
    else
      let dot_product := leadCandidateDot ego vehicle
      if dot_product ≤ 0 then acc
      else
        let angle := leadCandidateAngle ego vehicle
        if angle > detection_angle then acc
        else
          match acc with
          | none => some (vehicle, distance)
          | some (closest_vehicle, min_distance) =>
            if distance < min_distance then some (vehicle, distance)
            else some (closest_vehicle, min_distance)

/-- _find_lead_vehicle (lines 119-182): fold the detection loop over the
world's vehicles with max_detection_distance and detection_angle read from
config (lines 127-128), and return the closest surviving candidate. -/
def _find_lead_vehicle (ego : Vehicle) (all_vehicles : List Vehicle)
    (cfg : ExtractionConfig) : Option Vehicle :=
  (all_vehicles.foldl
    (considerVehicle ego cfg.max_detection_distance cfg.detection_angle)
    none).map Prod.fst

/-- get_velocity_delta (lines 96-117): None when no lead vehicle is found,
otherwise ego speed minus lead speed (positive when ego is faster). -/
def get_velocity_delta (ego : Vehicle) (world : List Vehicle)
    (cfg : ExtractionConfig) : Option ℝ :=
  match _find_lead_vehicle ego world cfg with
  | none => none
  | some lead_vehicle =>
    some (get_ego_velocity ego - norm3 lead_vehicle.velocity)

/-- An element of the np.float32 state array (line 202): NaN or a value.
float32 rounding is not modelled; the inputs exercised are exact. -/
inductive NpFloat where
  | nan : NpFloat
  | val (x : ℝ) : NpFloat

/-- How np.array(..., dtype=np.float32) treats a Python float-or-None entry:
None is coerced to NaN. -/
def pyToNp : Option ℝ → NpFloat
  | none => NpFloat.nan
  | some x => NpFloat.val x

/-- extract_basic_state (lines 184-209): the 4 basic features as an array.
A None velocity delta is replaced by 0.0 before assembly (lines 198-199);
the lane position is inserted as returned by get_lane_position, so a None
there reaches np.array and is coerced to NaN. -/
def extract_basic_state (ego : Vehicle) (world : List Vehicle)
    (laneMap : LaneMap) (cfg : ExtractionConfig) : List NpFloat :=
  let velocity := get_ego_velocity ego
  let passengers := get_num_passengers cfg
  let lane_pos := get_lane_position laneMap cfg ego
  let vel_delta := (get_velocity_delta ego world cfg).getD 0.0
  [NpFloat.val velocity, NpFloat.val (passengers : ℝ), pyToNp lane_pos,
   NpFloat.val vel_delta]

/-- The filters of lines 133-175 as a predicate on a candidate: not the ego
itself, within max_detection_distance, strictly ahead, and inside the
detection cone. -/
def passesLeadFilters (ego : Vehicle) (cfg : ExtractionConfig)
    (vehicle : Vehicle) : Prop :=
  vehicle.id ≠ ego.id
    ∧ leadCandidateDistance ego vehicle ≤ cfg.max_detection_distance
    ∧ 0 < leadCandidateDot ego vehicle
    ∧ leadCandidateAngle ego vehicle ≤ cfg.detection_angle

/-! ### Concrete scenarios (mirroring the repository's test fixtures) -/

/-- The mock ego of test_extraction.py: id 1 at (100, 50, 0), velocity
(10, 0, 0), forward (1, 0, 0). -/
def egoCenter : Vehicle := ⟨1, ⟨100, 50, 0⟩, ⟨10, 0, 0⟩, ⟨1, 0, 0⟩⟩

/-- The mock waypoint at the ego's own location, forward along x. -/
def wpCenter : Waypoint := ⟨⟨100, 50, 0⟩, ⟨1, 0, 0⟩⟩

/-- A map whose lane query always finds wpCenter. -/
def mapCenter : LaneMap := fun _ => some wpCenter

/-- A map whose lane query always fails. -/
def mapAbsent : LaneMap := fun _ => none

/-- The default configuration. -/
def cfgDefault : ExtractionConfig := {}

/-- An ego at the origin driving along x at 10 m/s. -/
def egoO : Vehicle := ⟨1, ⟨0, 0, 0⟩, ⟨10, 0, 0⟩, ⟨1, 0, 0⟩⟩

/-- A candidate 5 m directly ahead of egoO at 8 m/s. -/
def leadA : Vehicle := ⟨2, ⟨5, 0, 0⟩, ⟨8, 0, 0⟩, ⟨1, 0, 0⟩⟩

/-- A second candidate at the same spot (an exact distance tie with leadA). -/
def leadB : Vehicle := ⟨3, ⟨5, 0, 0⟩, ⟨6, 0, 0⟩, ⟨1, 0, 0⟩⟩

end

/-! ## Theorems -/

/-- The magnitude of an x-axis-aligned vector. -/
theorem norm3_axis (a : ℝ) (h : 0 ≤ a) : norm3 ⟨a, 0, 0⟩ = a := by
  unfold norm3
  rw [show a ^ 2 + (0 : ℝ) ^ 2 + (0 : ℝ) ^ 2 = a ^ 2 by ring]
  exact Real.sqrt_sq h

/-- C9: when no lane frame is available (the lane query returns none),
get_lane_position returns 0.0 rather than failing. -/
theorem get_lane_position_absent_returns_zero (laneMap : LaneMap)
    (cfg : ExtractionConfig) (ego : Vehicle)
    (h : laneMap ego.location = none) :
    get_lane_position laneMap cfg ego = some 0.0 := by
  unfold get_lane_position
  dsimp only
  rw [h]

/-- C9 witness: a map that never resolves a waypoint yields lane offset 0.0
at the test ego. -/
theorem get_lane_position_absent_returns_zero_witness :
    get_lane_position mapAbsent cfgDefault egoCenter = some 0.0 :=
  get_lane_position_absent_returns_zero mapAbsent cfgDefault egoCenter rfl

/-- C1: the claim says get_lane_position returns the clamped normalized
lateral offset, but whenever the lane query finds a waypoint the function
body computes normalized_position (lines 77-93) and ends without a return
statement, so the call returns Python None, never the offset. At the
concrete center scenario the computed-and-dropped value is 0, the value the
claim (and the repository's own tests) expect to be returned. -/
theorem get_lane_position_missing_return :
    (∀ (laneMap : LaneMap) (cfg : ExtractionConfig) (ego : Vehicle)
        (wp : Waypoint), laneMap ego.location = some wp →
          get_lane_position laneMap cfg ego = none)
    ∧ get_lane_position mapCenter cfgDefault egoCenter = none
    ∧ normalizedLanePosition egoCenter.location wpCenter
        cfgDefault.max_lane_offset = 0 := by
  refine ⟨?_, rfl, ?_⟩
  · intro laneMap cfg ego wp h
    unfold get_lane_position
    dsimp only
    rw [h]
  · unfold normalizedLanePosition egoCenter wpCenter cfgDefault
    norm_num

/-- C2: the assembled basic state always has length 4 (not the configured
full dimension 40), and at the center scenario its lane-position slot is
NaN: get_lane_position returns Python None (missing return) and
np.array(..., dtype=np.float32) coerces None to NaN. -/
theorem extract_basic_state_length4_nan_slot :
    (∀ (ego : Vehicle) (world : List Vehicle) (laneMap : LaneMap)
        (cfg : ExtractionConfig),
        (extract_basic_state ego world laneMap cfg).length = 4)
    ∧ extract_basic_state egoCenter [] mapCenter cfgDefault
        = [NpFloat.val 10, NpFloat.val 1, NpFloat.nan, NpFloat.val 0] := by
  constructor
  · intro ego world laneMap cfg
    rfl
  · have hv : get_ego_velocity egoCenter = 10 := by
      unfold get_ego_velocity egoCenter
      exact norm3_axis 10 (by norm_num)
    simp only [extract_basic_state, hv]
    norm_num [get_num_passengers, cfgDefault, get_lane_position, mapCenter,
      pyToNp, get_velocity_delta, _find_lead_vehicle]

/-! ### Validator lemmas and claims C5, C6, C7 -/

/-- Every element of a converted (float64) vector passes the isinstance
test of validator.py line 53. -/
theorem all_isNumericElement (v : List PyFloat) :
    v.all isNumericElement = true := by
  simp [List.all_eq_true, isNumericElement]

/-- A raised range violation is always a range error carrying a feature
name, the value, and the bounds. -/
theorem rangeViolation_shape (ranges : List (String × ℚ × ℚ)) (idx : ℕ)
    (value : PyFloat) (e : VError)
    (h : rangeViolation ranges idx value = some e) :
    ∃ f v low high, e = VError.rangeError f v low high := by
  unfold rangeViolation at h
  rcases hf : rangeFor ranges idx with _ | ⟨f, low, high⟩
  · rw [hf] at h
    exact absurd h (by simp)
  · rw [hf] at h
    dsimp only at h
    cases hb : pyInRange low high value with
    | true =>
      rw [hb] at h
      simp at h
    | false =>
      rw [hb] at h
      simp only [Bool.not_false, if_true] at h
      exact ⟨f, value, low, high, (Option.some.inj h).symm⟩

/-- The range-check loop succeeds exactly when no enumerated position has a
violation. -/
theorem rangeCheck_eq_none_iff (ranges : List (String × ℚ × ℚ)) :
    ∀ (l : List PyFloat) (idx : ℕ),
      rangeCheck ranges idx l = none ↔
        ∀ p ∈ List.enumFrom idx l, rangeViolation ranges p.1 p.2 = none := by
  intro l
  induction l with
  | nil =>
    intro idx
    simp [rangeCheck, List.enumFrom]
  | cons v rest ih =>
    intro idx
    have h0 : rangeCheck ranges idx (v :: rest) =
        match rangeViolation ranges idx v with
        | some e => some e
        | none => rangeCheck ranges (idx + 1) rest := rfl
    rcases hv : rangeViolation ranges idx v with _ | e
    · have hstep : rangeCheck ranges idx (v :: rest) =
          rangeCheck ranges (idx + 1) rest := by
        rw [h0, hv]
      rw [hstep, ih (idx + 1)]
      constructor
      · intro hrest p hp
        rcases (by simpa [List.enumFrom] using hp :
            p = (idx, v) ∨ p ∈ List.enumFrom (idx + 1) rest) with h1 | h2
        · rw [h1]
          exact hv
        · exact hrest p h2
      · intro hall p hp
        exact hall p (by simp [List.enumFrom, hp])
    · have hstep : rangeCheck ranges idx (v :: rest) = some e := by
        rw [h0, hv]
      rw [hstep]
      constructor
      · intro h
        exact absurd h (by simp)
      · intro hall
        exact absurd (hall (idx, v) (by simp [List.enumFrom])) (by simp [hv])

/-- A failing range-check loop raises a range error. -/
theorem rangeCheck_some_shape (ranges : List (String × ℚ × ℚ)) :
    ∀ (l : List PyFloat) (idx : ℕ) (e : VError),
      rangeCheck ranges idx l = some e →
        ∃ f v low high, e = VError.rangeError f v low high := by
  intro l
  induction l with
  | nil =>
    intro idx e h
    exact absurd h (by simp [rangeCheck])
  | cons v rest ih =>
    intro idx e h
    have h0 : rangeCheck ranges idx (v :: rest) =
        match rangeViolation ranges idx v with
        | some e => some e
        | none => rangeCheck ranges (idx + 1) rest := rfl
    rw [h0] at h
    rcases hv : rangeViolation ranges idx v with _ | e2
    · rw [hv] at h
      exact ih (idx + 1) e h
    · rw [hv] at h
      have he : e2 = e := Option.some.inj h
      obtain ⟨f, vv, lo, hi, h3⟩ := rangeViolation_shape ranges idx v e2 hv
      exact ⟨f, vv, lo, hi, he ▸ h3⟩

/-- On a well-dimensioned NaN-free input, validate succeeds exactly when the
range-check loop finds nothing, and surfaces the loop's error otherwise. -/
theorem validate_ok_iff_rangeCheck (ranges : List (String × ℚ × ℚ))
    (state : List PyObj) (vector : List PyFloat)
    (hconv : npAsarray state = some vector)
    (hlen : vector.length = expected_dim)
    (hnan : vector.any PyFloat.isNan = false) :
    (validate ranges state = Except.ok true ↔
      rangeCheck ranges 0 vector = none)
    ∧ (∀ e, rangeCheck ranges 0 vector = some e →
        validate ranges state = Except.error e) := by
  unfold validate
  rw [hconv]
  dsimp only
  rw [if_neg (by simp [hlen]), if_neg (by simp [hnan])]
  constructor
  · rcases h : rangeCheck ranges 0 vector with _ | e
    · simp [all_isNumericElement]
    · simp
  · intro e he
    rw [he]

/-- C6: a dimension mismatch always fails with a dimension error naming the
expected and actual lengths (even when the vector also contains NaN: the
dimension check comes first), and a correct-length vector containing NaN
always fails with the content error, whatever ranges are configured. -/
theorem validate_dim_before_nan (ranges : List (String × ℚ × ℚ))
    (state : List PyObj) (vector : List PyFloat)
    (hconv : npAsarray state = some vector) :
    (vector.length ≠ expected_dim →
      validate ranges state
        = Except.error (VError.dimError expected_dim vector.length))
    ∧ (vector.length = expected_dim → vector.any PyFloat.isNan = true →
      validate ranges state = Except.error VError.contentError) := by
  unfold validate
  rw [hconv]
  dsimp only
  constructor
  · intro h
    rw [if_pos h]
  · intro hlen hnan
    rw [if_neg (by simp [hlen]), if_pos hnan]

/-- A 39-element vector (validator expects 40). -/
def stateShort : List PyObj := List.replicate 39 (PyObj.float (PyFloat.val 0))

/-- stateShort after conversion. -/
def vecShort : List PyFloat := List.replicate 39 (PyFloat.val 0)

/-- A 40-element vector whose first element is NaN. -/
def stateNaN : List PyObj :=
  PyObj.float PyFloat.nan :: List.replicate 39 (PyObj.float (PyFloat.val 0))

/-- stateNaN after conversion. -/
def vecNaN : List PyFloat := PyFloat.nan :: List.replicate 39 (PyFloat.val 0)

/-- C6 witness: length 39 yields the dimension error naming 40 and 39; a
40-vector with one NaN yields the content error. -/
theorem validate_dim_before_nan_witness :
    validate [] stateShort = Except.error (VError.dimError 40 39)
    ∧ validate [] stateNaN = Except.error VError.contentError := by
  constructor
  · exact (validate_dim_before_nan [] stateShort vecShort rfl).1 (by decide)
  · exact (validate_dim_before_nan [] stateNaN vecNaN rfl).2 rfl rfl

/-- C7: on a well-dimensioned NaN-free input, validate succeeds exactly when
every enumerated position is free of a range violation; at a position whose
feature has a configured range the violation is empty exactly when the value
lies within the inclusive bounds, and is the range error naming the feature,
value and bounds exactly when the value is strictly below the low or
strictly above the high bound; unconfigured positions never violate; and
when some position violates, validate fails with a range error. -/
theorem validate_range_semantics (ranges : List (String × ℚ × ℚ))
    (state : List PyObj) (vector : List PyFloat)
    (hconv : npAsarray state = some vector)
    (hlen : vector.length = expected_dim)
    (hnan : vector.any PyFloat.isNan = false) :
    (validate ranges state = Except.ok true ↔
      ∀ p ∈ vector.enum, rangeViolation ranges p.1 p.2 = none)
    ∧ (∀ idx feature_name low high q,
        rangeFor ranges idx = some (feature_name, low, high) →
          ((rangeViolation ranges idx (PyFloat.val q) = none ↔
              low ≤ q ∧ q ≤ high)
            ∧ (rangeViolation ranges idx (PyFloat.val q)
                = some (VError.rangeError feature_name (PyFloat.val q)
                    low high) ↔ q < low ∨ high < q)))
    ∧ (∀ idx value, rangeFor ranges idx = none →
        rangeViolation ranges idx value = none)
    ∧ ((∃ p ∈ vector.enum, rangeViolation ranges p.1 p.2 ≠ none) →
        ∃ feature_name value low high, validate ranges state
          = Except.error (VError.rangeError feature_name value low high)) := by
  obtain ⟨hok, herr⟩ :=
    validate_ok_iff_rangeCheck ranges state vector hconv hlen hnan
  refine ⟨?_, ?_, ?_, ?_⟩
  · rw [hok, rangeCheck_eq_none_iff]
    rfl
  · intro idx feature_name low high q h
    have hval : pyInRange low high (PyFloat.val q)
        = (decide (low ≤ q) && decide (q ≤ high)) := rfl
    constructor
    · simp [rangeViolation, h, hval]
    · simp only [rangeViolation, h, hval]
      constructor
      · intro hsome
        by_cases hin : low ≤ q ∧ q ≤ high
        · rw [if_neg (by simp [hin.1, hin.2])] at hsome
          exact absurd hsome (by simp)
        · rcases not_and_or.mp hin with h1 | h2
          · exact Or.inl (lt_of_not_le h1)
          · exact Or.inr (lt_of_not_le h2)
      · intro hout
        rw [if_pos (by simpa using hout)]
  · intro idx value h
    simp [rangeViolation, h]
  · intro hex
    have hne : rangeCheck ranges 0 vector ≠ none := by
      intro hnone
      rw [rangeCheck_eq_none_iff] at hnone
      obtain ⟨p, hp, hvp⟩ := hex
      exact hvp (hnone p hp)
    obtain ⟨e, he⟩ := Option.ne_none_iff_exists'.mp hne
    obtain ⟨f, vv, lo, hi, hshape⟩ := rangeCheck_some_shape ranges vector 0 e he
    exact ⟨f, vv, lo, hi, by rw [herr e he, hshape]⟩

/-- The configured ranges of the spec's example: velocity_ego in [0, 50]. -/
def ranges0 : List (String × ℚ × ℚ) := [("velocity_ego_range", 0, 50)]

/-- A 40-vector with velocity_ego = 30 (inside the configured range). -/
def stateOK : List PyObj :=
  PyObj.float (PyFloat.val 30) :: List.replicate 39 (PyObj.float (PyFloat.val 0))

/-- stateOK after conversion. -/
def vecOK : List PyFloat := PyFloat.val 30 :: List.replicate 39 (PyFloat.val 0)

/-- C7 witness: with velocity_ego range [0, 50] configured, the value 30 is
accepted. -/
theorem validate_range_semantics_witness :
    validate ranges0 stateOK = Except.ok true :=
  (validate_range_semantics ranges0 stateOK vecOK rfl rfl rfl).1.mpr
    (by decide)

/-- A 40-vector of numeric strings: every element is non-numeric to
isinstance, yet each coerces under np.asarray(..., dtype=float). -/
def stateStr : List PyObj := List.replicate 40 (PyObj.str (some 5))

/-- C5 counterexample: a correct-length NaN-free vector within all
(un)configured ranges whose elements are all non-numeric strings is
accepted: validate returns success and never reaches a type error, refuting
the claim that a non-numeric element fails with a type error. -/
theorem validate_type_check_dead_cex :
    (∃ x ∈ stateStr, isNumericObj x = false)
    ∧ validate [] stateStr = Except.ok true := by
  constructor
  · exact ⟨PyObj.str (some 5), by decide, rfl⟩
  · rfl

/-- C5 amended: the type check, though positioned fourth, can never fail:
np.asarray(..., dtype=float) coerces every element to floating before any
check runs, so validate never raises the type error; an element that cannot
be coerced fails at the conversion step, before the dimension check. -/
theorem validate_never_type_error (ranges : List (String × ℚ × ℚ))
    (state : List PyObj) :
    validate ranges state ≠ Except.error VError.typeError
    ∧ (npAsarray state = none →
        validate ranges state = Except.error VError.convError) := by
  constructor
  · unfold validate
    rcases hconv : npAsarray state with _ | vector
    · simp
    · dsimp only
      by_cases h1 : vector.length ≠ expected_dim
      · rw [if_pos h1]
        simp
      · rw [if_neg h1]
        by_cases h2 : vector.any PyFloat.isNan = true
        · rw [if_pos h2]
          simp
        · rw [if_neg h2]
          rcases hrc : rangeCheck ranges 0 vector with _ | e
          · simp [all_isNumericElement]
          · obtain ⟨f, vv, lo, hi, he⟩ :=
              rangeCheck_some_shape ranges vector 0 e hrc
            simp [he]
  · intro h
    unfold validate
    rw [h]

/-- A vector whose first element is an unparseable string. -/
def stateBad : List PyObj :=
  PyObj.str none :: List.replicate 39 (PyObj.float (PyFloat.val 0))

/-- C5 amended witness: an unparseable string fails at conversion, before
the dimension check. -/
theorem validate_never_type_error_witness :
    validate [] stateBad = Except.error VError.convError :=
  (validate_never_type_error [] stateBad).2 rfl

/-! ### Statistics lemmas and claim C8 -/

namespace Statistics

/-- N update calls on a fresh accumulator leave N copies of the vector. -/
theorem iterate_update (v : List ℚ) :
    ∀ N : ℕ, (fun s => update s v)^[N] [] = List.replicate N v := by
  intro N
  induction N with
  | zero => rfl
  | succ n ih =>
    rw [Function.iterate_succ_apply', ih]
    unfold update
    rw [← List.replicate_succ']

/-- Reading every position of a list in order reproduces the list. -/
theorem range_map_getD (l : List ℚ) :
    (List.range l.length).map (fun j => l.getD j 0) = l := by
  apply List.ext_getElem
  · simp
  · intro i h1 h2
    simp [List.getD_eq_getElem, List.getElem?_eq_getElem h2]

/-- Folding min over copies of the starting value never moves. -/
theorem foldl_min_replicate (x : ℚ) :
    ∀ m : ℕ, (List.replicate m x).foldl min x = x := by
  intro m
  induction m with
  | zero => rfl
  | succ n ih =>
    rw [List.replicate_succ, List.foldl_cons, min_self]
    exact ih

/-- Folding max over copies of the starting value never moves. -/
theorem foldl_max_replicate (x : ℚ) :
    ∀ m : ℕ, (List.replicate m x).foldl max x = x := by
  intro m
  induction m with
  | zero => rfl
  | succ n ih =>
    rw [List.replicate_succ, List.foldl_cons, max_self]
    exact ih

/-- The mean of a nonempty constant column is its value. -/
theorem colMean_replicate (x : ℚ) (n : ℕ) :
    colMean (List.replicate (n + 1) x) = x := by
  unfold colMean
  rw [List.sum_replicate, List.length_replicate, nsmul_eq_mul]
  exact mul_div_cancel_left₀ x (by exact_mod_cast Nat.succ_ne_zero n)

/-- The population variance of a nonempty constant column is zero. -/
theorem colVar_replicate (x : ℚ) (n : ℕ) :
    colVar (List.replicate (n + 1) x) = 0 := by
  unfold colVar
  rw [colMean_replicate, List.map_replicate]
  simp

/-- The standard deviation of a nonempty constant column is zero. -/
theorem colStd_replicate (x : ℚ) (n : ℕ) :
    colStd (List.replicate (n + 1) x) = 0 := by
  unfold colStd
  rw [colVar_replicate]
  simp

/-- The min of a nonempty constant column is its value. -/
theorem colMin_replicate (x : ℚ) (n : ℕ) :
    colMin (List.replicate (n + 1) x) = x := by
  rw [List.replicate_succ]
  unfold colMin
  exact foldl_min_replicate x n

/-- The max of a nonempty constant column is its value. -/
theorem colMax_replicate (x : ℚ) (n : ℕ) :
    colMax (List.replicate (n + 1) x) = x := by
  rw [List.replicate_succ]
  unfold colMax
  exact foldl_max_replicate x n

/-- Columns of a stack of identical rows are constant. -/
theorem column_replicate (v : List ℚ) (m : ℕ) (j : ℕ) :
    column (List.replicate m v) j = List.replicate m (v.getD j 0) := by
  unfold column
  rw [List.map_replicate]

/-- C8: after N >= 1 update calls of the same vector v on a fresh
accumulator, summary returns mean v, per-feature population standard
deviation 0, min and max both v, and count N; a fresh accumulator with no
vectors yields the empty structure (none). -/
theorem summary_of_identical (v : List ℚ) (N : ℕ) (h : 1 ≤ N) :
    summary ((fun s => update s v)^[N] []) =
      some ⟨v, List.replicate v.length 0, v, v, N⟩
    ∧ summary ([] : List (List ℚ)) = none := by
  refine ⟨?_, rfl⟩
  obtain ⟨n, rfl⟩ : ∃ n, N = n + 1 :=
    ⟨N - 1, (Nat.succ_pred_eq_of_pos h).symm⟩
  rw [iterate_update, List.replicate_succ]
  have hsum : summary (v :: List.replicate n v) =
      some
        { mean := (List.range v.length).map
            (fun j => colMean (column (v :: List.replicate n v) j))
          std := (List.range v.length).map
            (fun j => colStd (column (v :: List.replicate n v) j))
          min := (List.range v.length).map
            (fun j => colMin (column (v :: List.replicate n v) j))
          max := (List.range v.length).map
            (fun j => colMax (column (v :: List.replicate n v) j))
          count := (v :: List.replicate n v).length } := rfl
  rw [hsum]
  have hcol : ∀ j, column (v :: List.replicate n v) j
      = List.replicate (n + 1) (v.getD j 0) := by
    intro j
    rw [← List.replicate_succ]
    exact column_replicate v (n + 1) j
  have hmean : (List.range v.length).map
      (fun j => colMean (column (v :: List.replicate n v) j)) = v := by
    rw [show ((fun j => colMean (column (v :: List.replicate n v) j)))
        = fun j => v.getD j 0 from funext fun j => by
          rw [hcol j, colMean_replicate]]
    exact range_map_getD v
  have hstd : (List.range v.length).map
      (fun j => colStd (column (v :: List.replicate n v) j))
      = List.replicate v.length (0 : ℝ) := by
    rw [show ((fun j => colStd (column (v :: List.replicate n v) j)))
        = Function.const ℕ (0 : ℝ) from funext fun j => by
          rw [hcol j, colStd_replicate]; rfl]
    rw [List.map_const, List.length_range]
  have hmin : (List.range v.length).map
      (fun j => colMin (column (v :: List.replicate n v) j)) = v := by
    rw [show ((fun j => colMin (column (v :: List.replicate n v) j)))
        = fun j => v.getD j 0 from funext fun j => by
          rw [hcol j, colMin_replicate]]
    exact range_map_getD v
  have hmax : (List.range v.length).map
      (fun j => colMax (column (v :: List.replicate n v) j)) = v := by
    rw [show ((fun j => colMax (column (v :: List.replicate n v) j)))
        = fun j => v.getD j 0 from funext fun j => by
          rw [hcol j, colMax_replicate]]
    exact range_map_getD v
  rw [hmean, hstd, hmin, hmax]
  simp

/-- C8 witness: two updates of [1, 2] yield mean [1, 2], std [0, 0],
min = max = [1, 2], count 2; the fresh accumulator summarizes to none. -/
theorem summary_of_identical_witness :
    summary ((fun s => update s ([1, 2] : List ℚ))^[2] []) =
      some ⟨[1, 2], List.replicate 2 0, [1, 2], [1, 2], 2⟩
    ∧ summary ([] : List (List ℚ)) = none := by
  have h := summary_of_identical ([1, 2] : List ℚ) 2 (by norm_num)
  simpa using h

end Statistics

/-! ### Lead-detection lemmas and claims C3, C4, C10 -/

/-- When a candidate passes every filter, the loop body reduces to the
closest-so-far update of lines 177-180. -/
theorem considerVehicle_pass (ego : Vehicle) (cfg : ExtractionConfig)
    (acc : Option (Vehicle × ℝ)) (vehicle : Vehicle)
    (h : passesLeadFilters ego cfg vehicle) :
    considerVehicle ego cfg.max_detection_distance cfg.detection_angle
        acc vehicle =
      match acc with
      | none => some (vehicle, leadCandidateDistance ego vehicle)
      | some (closest, m) =>
        if leadCandidateDistance ego vehicle < m then
          some (vehicle, leadCandidateDistance ego vehicle)
        else some (closest, m) := by
  obtain ⟨h1, h2, h3, h4⟩ := h
  unfold considerVehicle
  rw [if_neg h1]
  dsimp only
  rw [if_neg (not_lt.mpr h2), if_neg (not_le.mpr h3), if_neg (not_lt.mpr h4)]

/-- When a candidate fails some filter, the loop body skips it. -/
theorem considerVehicle_skip (ego : Vehicle) (cfg : ExtractionConfig)
    (acc : Option (Vehicle × ℝ)) (vehicle : Vehicle)
    (h : ¬ passesLeadFilters ego cfg vehicle) :
    considerVehicle ego cfg.max_detection_distance cfg.detection_angle
        acc vehicle = acc := by
  unfold considerVehicle
  by_cases h1 : vehicle.id = ego.id
  · rw [if_pos h1]
  · rw [if_neg h1]
    dsimp only
    by_cases h2 : leadCandidateDistance ego vehicle
        > cfg.max_detection_distance
    · rw [if_pos h2]
    · rw [if_neg h2]
      by_cases h3 : leadCandidateDot ego vehicle ≤ 0
      · rw [if_pos h3]
      · rw [if_neg h3]
        by_cases h4 : leadCandidateAngle ego vehicle > cfg.detection_angle
        · rw [if_pos h4]
        · exact absurd ⟨h1, not_lt.mp h2, not_le.mp h3, not_lt.mp h4⟩ h

/-- The loop yields no candidate exactly when it started with none and every
listed vehicle fails some filter. -/
theorem foldl_consider_none_iff (ego : Vehicle) (cfg : ExtractionConfig) :
    ∀ (l : List Vehicle) (acc : Option (Vehicle × ℝ)),
      l.foldl (considerVehicle ego cfg.max_detection_distance
          cfg.detection_angle) acc = none ↔
        acc = none ∧ ∀ v ∈ l, ¬ passesLeadFilters ego cfg v := by
  intro l
  induction l with
  | nil =>
    intro acc
    simp
  | cons v t ih =>
    intro acc
    rw [List.foldl_cons]
    by_cases hv : passesLeadFilters ego cfg v
    · have hstep := considerVehicle_pass ego cfg acc v hv
      cases acc with
      | none =>
        rw [hstep]
        rw [ih]
        simp [List.forall_mem_cons, hv]
      | some p =>
        rcases p with ⟨c, m⟩
        rw [hstep]
        dsimp only
        by_cases hlt : leadCandidateDistance ego v < m
        · rw [if_pos hlt, ih]
          simp [List.forall_mem_cons, hv]
        · rw [if_neg hlt, ih]
          simp [List.forall_mem_cons, hv]
    · rw [considerVehicle_skip ego cfg acc v hv, ih]
      simp [List.forall_mem_cons, hv]

/-- Folding the loop from a well-formed best-so-far (b, n): the result is a
passing candidate carrying its own distance, and either b survives with its
bound extended over the new vehicles, or the result sits somewhere in the
list, strictly beat n and every passing vehicle before it, and is no
farther than any passing vehicle after it. -/
theorem foldl_consider_some_spec (ego : Vehicle) (cfg : ExtractionConfig) :
    ∀ (l : List Vehicle) (b : Vehicle) (n : ℝ),
      n = leadCandidateDistance ego b → passesLeadFilters ego cfg b →
      ∀ (c : Vehicle) (m : ℝ),
        l.foldl (considerVehicle ego cfg.max_detection_distance
            cfg.detection_angle) (some (b, n)) = some (c, m) →
        m = leadCandidateDistance ego c ∧ passesLeadFilters ego cfg c ∧
          ((c = b ∧ m = n ∧ ∀ v ∈ l, passesLeadFilters ego cfg v →
              m ≤ leadCandidateDistance ego v)
            ∨ ∃ l1 l2, l = l1 ++ c :: l2 ∧ m < n
                ∧ (∀ v ∈ l1, passesLeadFilters ego cfg v →
                    m < leadCandidateDistance ego v)
                ∧ (∀ v ∈ l2, passesLeadFilters ego cfg v →
                    m ≤ leadCandidateDistance ego v)) := by
  intro l
  induction l with
  | nil =>
    intro b n hn hb c m h
    rw [List.foldl_nil] at h
    obtain ⟨hbc, hnm⟩ := Prod.mk.injEq .. ▸ Option.some.inj h
    refine ⟨by rw [← hnm, ← hbc, hn], by rw [← hbc]; exact hb, Or.inl ?_⟩
    exact ⟨hbc.symm, hnm.symm, by simp⟩
  | cons v t ih =>
    intro b n hn hb c m h
    rw [List.foldl_cons] at h
    by_cases hv : passesLeadFilters ego cfg v
    · rw [considerVehicle_pass ego cfg (some (b, n)) v hv] at h
      dsimp only at h
      by_cases hlt : leadCandidateDistance ego v < n
      · rw [if_pos hlt] at h
        obtain ⟨hm, hc, hcase⟩ :=
          ih v (leadCandidateDistance ego v) rfl hv c m h
        refine ⟨hm, hc, Or.inr ?_⟩
        rcases hcase with ⟨hcv, hmv, hbound⟩ | ⟨l1, l2, heq, hmlt, hb1, hb2⟩
        · refine ⟨[], t, by rw [hcv]; rfl, by rw [hmv]; exact hlt,
            by simp, hbound⟩
        · refine ⟨v :: l1, l2, by rw [List.cons_append, heq],
            lt_trans hmlt hlt, ?_, hb2⟩
          intro w hw hPw
          rcases List.mem_cons.mp hw with hwv | hwl
          · rw [hwv]
            exact hmlt
          · exact hb1 w hwl hPw
      · rw [if_neg hlt] at h
        have hnv : n ≤ leadCandidateDistance ego v := not_lt.mp hlt
        obtain ⟨hm, hc, hcase⟩ := ih b n hn hb c m h
        refine ⟨hm, hc, ?_⟩
        rcases hcase with ⟨hcv, hmv, hbound⟩ | ⟨l1, l2, heq, hmlt, hb1, hb2⟩
        · refine Or.inl ⟨hcv, hmv, ?_⟩
          intro w hw hPw
          rcases List.mem_cons.mp hw with hwv | hwl
          · rw [hwv, hmv]
            exact hnv
          · exact hbound w hwl hPw
        · refine Or.inr ⟨v :: l1, l2, by rw [List.cons_append, heq],
            hmlt, ?_, hb2⟩
          intro w hw hPw
          rcases List.mem_cons.mp hw with hwv | hwl
          · rw [hwv]
            exact lt_of_lt_of_le hmlt hnv
          · exact hb1 w hwl hPw
    · rw [considerVehicle_skip ego cfg (some (b, n)) v hv] at h
      obtain ⟨hm, hc, hcase⟩ := ih b n hn hb c m h
      refine ⟨hm, hc, ?_⟩
      rcases hcase with ⟨hcv, hmv, hbound⟩ | ⟨l1, l2, heq, hmlt, hb1, hb2⟩
      · refine Or.inl ⟨hcv, hmv, ?_⟩
        intro w hw hPw
        rcases List.mem_cons.mp hw with hwv | hwl
        · rw [hwv] at hPw
          exact absurd hPw hv
        · exact hbound w hwl hPw
      · refine Or.inr ⟨v :: l1, l2, by rw [List.cons_append, heq],
          hmlt, ?_, hb2⟩
        intro w hw hPw
        rcases List.mem_cons.mp hw with hwv | hwl
        · rw [hwv] at hPw
          exact absurd hPw hv
        · exact hb1 w hwl hPw

/-- Folding the loop from its initial state: a returned pair is a passing
candidate with its own distance, placed in the list so that every passing
vehicle before it is strictly farther and every one after it no closer. -/
theorem foldl_consider_from_none (ego : Vehicle) (cfg : ExtractionConfig) :
    ∀ (l : List Vehicle) (c : Vehicle) (m : ℝ),
      l.foldl (considerVehicle ego cfg.max_detection_distance
          cfg.detection_angle) none = some (c, m) →
      m = leadCandidateDistance ego c ∧ passesLeadFilters ego cfg c ∧
        ∃ l1 l2, l = l1 ++ c :: l2
          ∧ (∀ v ∈ l1, passesLeadFilters ego cfg v →
              m < leadCandidateDistance ego v)
          ∧ (∀ v ∈ l2, passesLeadFilters ego cfg v →
              m ≤ leadCandidateDistance ego v) := by
  intro l
  induction l with
  | nil =>
    intro c m h
    exact absurd h (by simp)
  | cons v t ih =>
    intro c m h
    rw [List.foldl_cons] at h
    by_cases hv : passesLeadFilters ego cfg v
    · rw [considerVehicle_pass ego cfg none v hv] at h
      dsimp only at h
      obtain ⟨hm, hc, hcase⟩ :=
        foldl_consider_some_spec ego cfg t v
          (leadCandidateDistance ego v) rfl hv c m h
      refine ⟨hm, hc, ?_⟩
      rcases hcase with ⟨hcv, hmv, hbound⟩ | ⟨l1, l2, heq, hmlt, hb1, hb2⟩
      · exact ⟨[], t, by rw [hcv]; rfl, by simp, hbound⟩
      · refine ⟨v :: l1, l2, by rw [List.cons_append, heq], ?_, hb2⟩
        intro w hw hPw
        rcases List.mem_cons.mp hw with hwv | hwl
        · rw [hwv]
          exact hmlt
        · exact hb1 w hwl hPw
    · rw [considerVehicle_skip ego cfg none v hv] at h
      obtain ⟨hm, hc, l1, l2, heq, hb1, hb2⟩ := ih c m h
      refine ⟨hm, hc, v :: l1, l2, by rw [List.cons_append, heq], ?_, hb2⟩
      intro w hw hPw
      rcases List.mem_cons.mp hw with hwv | hwl
      · rw [hwv] at hPw
        exact absurd hPw hv
      · exact hb1 w hwl hPw

/-- C3: a returned lead is never the ego, lies within
max_detection_distance, has strictly positive forward projection, sits
inside the detection cone (degrees of the arccos of the clamped cosine at
most detection_angle), and is closest among all candidates passing those
filters; when no candidate passes, no lead is returned. -/
theorem find_lead_vehicle_filters_and_min (ego : Vehicle)
    (world : List Vehicle) (cfg : ExtractionConfig) :
    (∀ c, _find_lead_vehicle ego world cfg = some c →
      passesLeadFilters ego cfg c ∧
        ∀ v ∈ world, passesLeadFilters ego cfg v →
          leadCandidateDistance ego c ≤ leadCandidateDistance ego v)
    ∧ ((∀ v ∈ world, ¬ passesLeadFilters ego cfg v) →
        _find_lead_vehicle ego world cfg = none) := by
  constructor
  · intro c h
    unfold _find_lead_vehicle at h
    obtain ⟨⟨c2, m⟩, hf, hc⟩ := Option.map_eq_some'.mp h
    rw [show c2 = c from hc] at hf
    obtain ⟨hm, hP, l1, l2, heq, hb1, hb2⟩ :=
      foldl_consider_from_none ego cfg world c m hf
    refine ⟨hP, ?_⟩
    intro v hv hPv
    rw [← hm]
    rw [heq] at hv
    rcases List.mem_append.mp hv with hvl | hvr
    · exact le_of_lt (hb1 v hvl hPv)
    · rcases List.mem_cons.mp hvr with hvc | hvl2
      · rw [hvc, hm]
      · exact hb2 v hvl2 hPv
  · intro hall
    unfold _find_lead_vehicle
    rw [(foldl_consider_none_iff ego cfg world none).mpr ⟨rfl, hall⟩]
    rfl

/-- C10: a returned lead splits the enumeration so that every passing
candidate listed before it is strictly farther (the update at line 178 uses
a strict comparison, so a later candidate at the same minimal distance
never replaces an earlier one) and every passing candidate after it is no
closer: the earliest minimal passing candidate is returned. -/
theorem find_lead_vehicle_tie_earliest (ego : Vehicle)
    (world : List Vehicle) (cfg : ExtractionConfig) (c : Vehicle)
    (h : _find_lead_vehicle ego world cfg = some c) :
    ∃ l1 l2, world = l1 ++ c :: l2 ∧ passesLeadFilters ego cfg c
      ∧ (∀ v ∈ l1, passesLeadFilters ego cfg v →
          leadCandidateDistance ego c < leadCandidateDistance ego v)
      ∧ (∀ v ∈ l2, passesLeadFilters ego cfg v →
          leadCandidateDistance ego c ≤ leadCandidateDistance ego v) := by
  unfold _find_lead_vehicle at h
  obtain ⟨⟨c2, m⟩, hf, hc⟩ := Option.map_eq_some'.mp h
  rw [show c2 = c from hc] at hf
  obtain ⟨hm, hP, l1, l2, heq, hb1, hb2⟩ :=
    foldl_consider_from_none ego cfg world c m hf
  rw [hm] at hb1 hb2
  exact ⟨l1, l2, heq, hP, hb1, hb2⟩

/-- C4: with a lead found, the velocity delta is exactly ego speed minus
lead speed (each the Euclidean norm of the velocity vector); with none it
is absent, and the assembler writes 0.0 into slot 3. -/
theorem get_velocity_delta_spec (ego : Vehicle) (world : List Vehicle)
    (laneMap : LaneMap) (cfg : ExtractionConfig) :
    (∀ c, _find_lead_vehicle ego world cfg = some c →
      get_velocity_delta ego world cfg
        = some (get_ego_velocity ego - norm3 c.velocity))
    ∧ (_find_lead_vehicle ego world cfg = none →
        get_velocity_delta ego world cfg = none)
    ∧ (get_velocity_delta ego world cfg = none →
        (extract_basic_state ego world laneMap cfg).get? 3
          = some (NpFloat.val 0)) := by
  refine ⟨?_, ?_, ?_⟩
  · intro c h
    unfold get_velocity_delta
    rw [h]
  · intro h
    unfold get_velocity_delta
    rw [h]
  · intro h
    unfold extract_basic_state
    dsimp only
    rw [h]
    norm_num

/-! ### Scenario evaluation: two passing candidates at the same distance -/

/-- The displacement from egoO to leadA has magnitude 5. -/
theorem dist_leadA : leadCandidateDistance egoO leadA = 5 := by
  have h : leadCandidateDistance egoO leadA = Real.sqrt 25 := by
    unfold leadCandidateDistance sub3 norm3 egoO leadA
    norm_num
  rw [h, show (25 : ℝ) = 5 ^ 2 by norm_num, Real.sqrt_sq]
  norm_num

/-- The displacement from egoO to leadB has magnitude 5 as well. -/
theorem dist_leadB : leadCandidateDistance egoO leadB = 5 := by
  have h : leadCandidateDistance egoO leadB = Real.sqrt 25 := by
    unfold leadCandidateDistance sub3 norm3 egoO leadB
    norm_num
  rw [h, show (25 : ℝ) = 5 ^ 2 by norm_num, Real.sqrt_sq]
  norm_num

/-- leadA projects 5 onto the ego forward direction. -/
theorem dot_leadA : leadCandidateDot egoO leadA = 5 := by
  unfold leadCandidateDot dot3 sub3 egoO leadA
  norm_num

/-- leadB projects 5 onto the ego forward direction. -/
theorem dot_leadB : leadCandidateDot egoO leadB = 5 := by
  unfold leadCandidateDot dot3 sub3 egoO leadB
  norm_num

/-- The ego forward vector has unit magnitude. -/
theorem norm3_egoO_forward : norm3 egoO.forward = 1 := by
  unfold egoO
  dsimp only
  exact norm3_axis 1 (by norm_num)

/-- leadA sits dead ahead: its detection angle is 0 degrees. -/
theorem angle_leadA : leadCandidateAngle egoO leadA = 0 := by
  unfold leadCandidateAngle
  rw [dot_leadA, norm3_egoO_forward, dist_leadA]
  rw [show (5 : ℝ) / (1 * 5) = 1 by norm_num]
  rw [show min (1.0 : ℝ) 1 = 1 by norm_num [min_def]]
  rw [show max (-1.0 : ℝ) 1 = 1 by norm_num [max_def]]
  rw [Real.arccos_one]
  unfold degrees
  norm_num

/-- leadB sits dead ahead as well. -/
theorem angle_leadB : leadCandidateAngle egoO leadB = 0 := by
  unfold leadCandidateAngle
  rw [dot_leadB, norm3_egoO_forward, dist_leadB]
  rw [show (5 : ℝ) / (1 * 5) = 1 by norm_num]
  rw [show min (1.0 : ℝ) 1 = 1 by norm_num [min_def]]
  rw [show max (-1.0 : ℝ) 1 = 1 by norm_num [max_def]]
  rw [Real.arccos_one]
  unfold degrees
  norm_num

/-- leadA passes every detection filter under the default configuration. -/
theorem passes_leadA : passesLeadFilters egoO cfgDefault leadA := by
  refine ⟨by decide, ?_, ?_, ?_⟩
  · rw [dist_leadA]
    norm_num [cfgDefault]
  · rw [dot_leadA]
    norm_num
  · rw [angle_leadA]
    norm_num [cfgDefault]

/-- leadB passes every detection filter under the default configuration. -/
theorem passes_leadB : passesLeadFilters egoO cfgDefault leadB := by
  refine ⟨by decide, ?_, ?_, ?_⟩
  · rw [dist_leadB]
    norm_num [cfgDefault]
  · rw [dot_leadB]
    norm_num
  · rw [angle_leadB]
    norm_num [cfgDefault]

/-- Running the detector on the tie scenario returns leadA, the candidate
enumerated first. -/
theorem find_lead_scenario :
    _find_lead_vehicle egoO [leadA, leadB] cfgDefault = some leadA := by
  have e1 : considerVehicle egoO cfgDefault.max_detection_distance
      cfgDefault.detection_angle none leadA
        = some (leadA, leadCandidateDistance egoO leadA) := by
    rw [considerVehicle_pass egoO cfgDefault none leadA passes_leadA]
  have e2 : considerVehicle egoO cfgDefault.max_detection_distance
      cfgDefault.detection_angle
        (some (leadA, leadCandidateDistance egoO leadA)) leadB
        = some (leadA, leadCandidateDistance egoO leadA) := by
    rw [considerVehicle_pass egoO cfgDefault _ leadB passes_leadB]
    dsimp only
    rw [dist_leadB, dist_leadA]
    rw [if_neg (lt_irrefl (5 : ℝ))]
  unfold _find_lead_vehicle
  rw [List.foldl_cons, e1, List.foldl_cons, e2, List.foldl_nil]
  rfl

/-- C3 witness: in the tie scenario the returned candidate leadA passes all
filters and is closest among passing candidates. -/
theorem find_lead_filters_witness :
    passesLeadFilters egoO cfgDefault leadA ∧
      ∀ v ∈ [leadA, leadB], passesLeadFilters egoO cfgDefault v →
        leadCandidateDistance egoO leadA ≤ leadCandidateDistance egoO v :=
  (find_lead_vehicle_filters_and_min egoO [leadA, leadB] cfgDefault).1
    leadA find_lead_scenario

/-- C10 witness: with leadA and leadB tied at distance 5, the detector's
result leadA splits the list with the strict bound on the left part. -/
theorem find_lead_tie_witness :
    ∃ l1 l2, ([leadA, leadB] : List Vehicle) = l1 ++ leadA :: l2
      ∧ passesLeadFilters egoO cfgDefault leadA
      ∧ (∀ v ∈ l1, passesLeadFilters egoO cfgDefault v →
          leadCandidateDistance egoO leadA < leadCandidateDistance egoO v)
      ∧ (∀ v ∈ l2, passesLeadFilters egoO cfgDefault v →
          leadCandidateDistance egoO leadA
            ≤ leadCandidateDistance egoO v) :=
  find_lead_vehicle_tie_earliest egoO [leadA, leadB] cfgDefault leadA
    find_lead_scenario

/-- C4 witness: in the tie scenario the delta is ego speed minus leadA
speed, which evaluates to +2 (ego 10 m/s, lead 8 m/s); with no other
vehicle the delta is absent and slot 3 of the assembled state is 0.0. -/
theorem get_velocity_delta_spec_witness :
    get_velocity_delta egoO [leadA, leadB] cfgDefault
      = some (get_ego_velocity egoO - norm3 leadA.velocity)
    ∧ get_velocity_delta egoO [] cfgDefault = none
    ∧ (extract_basic_state egoO [] mapAbsent cfgDefault).get? 3
      = some (NpFloat.val 0)
    ∧ get_ego_velocity egoO - norm3 leadA.velocity = 2 := by
  have hspec :=
    get_velocity_delta_spec egoO [leadA, leadB] mapAbsent cfgDefault
  have hspec2 := get_velocity_delta_spec egoO [] mapAbsent cfgDefault
  refine ⟨hspec.1 leadA find_lead_scenario, hspec2.2.1 rfl,
    hspec2.2.2 (hspec2.2.1 rfl), ?_⟩
  have h10 : get_ego_velocity egoO = 10 := by
    unfold get_ego_velocity egoO
    dsimp only
    exact norm3_axis 10 (by norm_num)
  have h8 : norm3 leadA.velocity = 8 := by
    unfold leadA
    dsimp only
    exact norm3_axis 8 (by norm_num)
  rw [h10, h8]
  norm_num

end Pipeline
